import Mathlib

/-!
Verification of the android-converter browser client (`src/static/script.js`
and the two variant clients `src/unnamed/part_000` / `src/unnamed/part_001`).

The JavaScript client is embedded shallowly: the DOM state it mutates is a
Lean structure, each handler becomes a pure state-transition function, and
JavaScript truthiness on `x || d` expressions is modelled explicitly
(absent and zero numeric values are falsy; absent and empty strings are
falsy).  Numbers carried by the protocol are modelled as `Int` (the client
performs no fractional arithmetic on them), turn ordinals as `Nat`.
-/

namespace AndroidConverter

/-- JavaScript `v || d` on an optional numeric field: `undefined` and `0`
are falsy and select the default. -/
def jsOrInt (v : Option Int) (d : Int) : Int :=
  match v with
  | some x => if x = 0 then d else x
  | none => d

/-- JavaScript `v || d` on an optional string field: `undefined` and the
empty string are falsy and select the default. -/
def jsOrStr (v : Option String) (d : String) : String :=
  match v with
  | some s => if s = "" then d else s
  | none => d

/-- JavaScript `s.includes(sub)`: `splitOn` yields at least two pieces
exactly when `sub` occurs in `s`. -/
def textIncludes (s sub : String) : Bool :=
  decide (2 ≤ (s.splitOn sub).length)

/-- The three-way motivation distribution carried by
`confidence.motivation_guess` (script.js line 272). -/
structure Motivation where
  head : Int
  heart : Int
  hand : Int
deriving DecidableEq, Repr

/-- The `confidence` object of a `dashboard_update` event. -/
structure Confidence where
  fraud_likelihood : Option Int
  motivation_guess : Option Motivation
  reasoning : Option String
deriving DecidableEq, Repr

/-- The `sentiment` object of a `dashboard_update` event.  The five
scalar fields are always numeric in the protocol; `emotional_tone` may be
absent. -/
structure SentimentData where
  satisfaction : Int
  trust : Int
  urgency : Int
  frustration : Int
  likelihood_to_convert : Int
  emotional_tone : Option String
deriving DecidableEq, Repr

/-- Payload of a `dashboard_update` event (script.js line 257). -/
structure DashboardUpdate where
  confidence : Confidence
  sentiment : SentimentData
  turn : Option Nat
deriving DecidableEq, Repr

/-- JavaScript `s.toLowerCase()`: lower-case every character.  The tone
keywords are plain ASCII, for which `Char.toLower` agrees with the
JavaScript conversion. -/
def jsToLower (s : String) : String :=
  String.mk (s.data.map Char.toLower)

/-- Keyword list from `getToneClass` (script.js line 336). -/
def positiveTones : List String :=
  ["happy", "interested", "curious", "engaged", "warm", "friendly"]

/-- Keyword list from `getToneClass` (script.js line 337). -/
def negativeTones : List String :=
  ["frustrated", "annoyed", "skeptical", "impatient", "hostile", "angry"]

/-- `getToneClass` (script.js lines 335-341).  `tone?.toLowerCase()` on an
absent tone is `undefined`, which is in neither keyword list, so the
result is `neutral`. -/
def getToneClass (tone : Option String) : String :=
  match tone with
  | some t =>
    if positiveTones.contains (jsToLower t) then "positive"
    else if negativeTones.contains (jsToLower t) then "negative"
    else "neutral"
  | none => "neutral"

/-- `getDominantMotivation` (script.js lines 328-333). -/
def getDominantMotivation (m : Motivation) : String :=
  if m.head ≥ m.heart ∧ m.head ≥ m.hand then "head"
  else if m.heart ≥ m.head ∧ m.heart ≥ m.hand then "heart"
  else "hand"

/-- Colour-class suffix computed for every sentiment bar
(`updateSentimentBar`, script.js lines 321-323); the same thresholds are
used for the fraud bar (line 269). -/
def sentimentLevel (value : Int) : String :=
  if value ≥ 7 then "high" else if value ≥ 4 then "medium" else "low"

/-- The rendered dashboard.  One field per DOM text/class slot the client
writes.  Bar widths are always ten times the displayed value (both in
`updateDashboard` and in `resetDashboard`), so they are not duplicated
here; each `…Level` field is the colour-class suffix of the bar. -/
structure Dashboard where
  fraudRisk : Int
  fraudLevel : String
  head : Int
  heart : Int
  hand : Int
  dominant : Option String
  reasoning : String
  satisfaction : Int
  satisfactionLevel : String
  trust : Int
  trustLevel : String
  urgency : Int
  urgencyLevel : String
  frustration : Int
  frustrationLevel : String
  likelihood : Int
  likelihoodLevel : String
  tone : String
  toneClass : String
  warningShown : Bool
  warningLevel : String
deriving DecidableEq, Repr

/-- The dashboard part of `updateDashboard` (script.js lines 255-310).
`prev` is the dashboard as rendered before the event; it survives only in
`warningLevel`, whose class the source leaves untouched when the warning
is hidden.  `sentiment.frustration || 0` equals `sentiment.frustration`
for every numeric value, so the displayed frustration is used directly. -/
def updateDashboard (data : DashboardUpdate) (prev : Dashboard) : Dashboard :=
  let fraudRisk := jsOrInt data.confidence.fraud_likelihood 5
  let motivation := data.confidence.motivation_guess.getD
    { head := 33, heart := 34, hand := 33 }
  let displayedFrustration := data.sentiment.frustration
  { fraudRisk := fraudRisk
  , fraudLevel := sentimentLevel fraudRisk
  , head := motivation.head
  , heart := motivation.heart
  , hand := motivation.hand
  , dominant := some (getDominantMotivation motivation)
  , reasoning := jsOrStr data.confidence.reasoning "Analyzing..."
  , satisfaction := data.sentiment.satisfaction
  , satisfactionLevel := sentimentLevel data.sentiment.satisfaction
  , trust := data.sentiment.trust
  , trustLevel := sentimentLevel data.sentiment.trust
  , urgency := data.sentiment.urgency
  , urgencyLevel := sentimentLevel data.sentiment.urgency
  , frustration := data.sentiment.frustration
  , frustrationLevel := sentimentLevel data.sentiment.frustration
  , likelihood := data.sentiment.likelihood_to_convert
  , likelihoodLevel := sentimentLevel data.sentiment.likelihood_to_convert
  , tone := jsOrStr data.sentiment.emotional_tone "neutral"
  , toneClass := getToneClass data.sentiment.emotional_tone
  , warningShown := decide (displayedFrustration ≥ 6)
  , warningLevel :=
      if displayedFrustration ≥ 6 then
        if displayedFrustration ≥ 8 then "critical" else "warning"
      else prev.warningLevel }

/-- `resetDashboard` (script.js lines 344-380).  The source rewrites the
displayed values and the fraud/tone classes but never touches the five
sentiment-bar colour classes or the hidden warning's class, so those
survive from `prev`. -/
def resetDashboard (prev : Dashboard) : Dashboard :=
  { fraudRisk := 2
  , fraudLevel := "low"
  , head := 33
  , heart := 33
  , hand := 33
  , dominant := none
  , reasoning := "Waiting for conversation to begin..."
  , satisfaction := 5
  , satisfactionLevel := prev.satisfactionLevel
  , trust := 5
  , trustLevel := prev.trustLevel
  , urgency := 5
  , urgencyLevel := prev.urgencyLevel
  , frustration := 2
  , frustrationLevel := prev.frustrationLevel
  , likelihood := 5
  , likelihoodLevel := prev.likelihoodLevel
  , tone := "neutral"
  , toneClass := "neutral"
  , warningShown := false
  , warningLevel := prev.warningLevel }

/-- `AGENT_ICONS[agent.style] || '?'` (script.js lines 57-63 and 133). -/
def agentIconFor (style : String) : String :=
  if style = "closer" then "C"
  else if style = "detective" then "D"
  else if style = "empath" then "E"
  else if style = "robot" then "R"
  else if style = "gambler" then "G"
  else "?"

/-- The `outcomeEmoji` lookup table of `handleCallEnd`
(script.js lines 391-396): a plain-object lookup, `undefined` when the
outcome is not one of the four keys. -/
def outcomeEmoji (o : String) : Option String :=
  if o = "conversion" then some "+"
  else if o = "missed_opp" then some "-"
  else if o = "fraud_caught" then some "!"
  else if o = "fraud_missed" then some "X"
  else none

/-- The marker actually rendered in the outcome card header:
`outcomeEmoji[data.outcome] || '?'` (script.js line 403). -/
def outcomeMarker (o : String) : String :=
  (outcomeEmoji o).getD "?"

/-- One entry of the chat column, in document order.  Avatar imagery and
inner markup are presentation only; each constructor keeps the fields
that the handlers branch on or that identify the element. -/
inductive ChatItem where
  | welcome
  | divider (callId : Nat) (agentStyle displayName : String) (warmup : Bool)
  | systemBubble (text : String)
  | fraudAlert (risk : Int)
  | bubble (speaker text : String) (isBounce : Bool)
  | typingIndicator (speaker : String)
  | outcomeCard (outcome marker pointsClass : String) (points : Int)
deriving DecidableEq, Repr

/-- Is this chat entry the element with id `typing-indicator`? -/
def isTypingItem : ChatItem → Bool
  | ChatItem.typingIndicator _ => true
  | _ => false

/-- Is this chat entry the `.welcome-message` element? -/
def isWelcomeItem : ChatItem → Bool
  | ChatItem.welcome => true
  | _ => false

/-- Number of typing indicators currently in the chat. -/
def countTyping (c : List ChatItem) : Nat :=
  c.countP isTypingItem

/-- `hideTypingIndicator` (script.js lines 247-252):
`getElementById` returns the first matching element in document order and
`remove()` deletes it; nothing happens when none exists. -/
def hideTypingChat : List ChatItem → List ChatItem
  | [] => []
  | i :: rest => if isTypingItem i then rest else i :: hideTypingChat rest

/-- The welcome-message removal in `handleCallStart` (script.js lines
121-124): `querySelector` finds the first match, `remove()` deletes it. -/
def removeWelcome : List ChatItem → List ChatItem
  | [] => []
  | i :: rest => if isWelcomeItem i then rest else i :: removeWelcome rest

/-- Mutable client state of script.js: the module-level variables
(`currentFraudRisk`, `currentAgentStyle`), the chat column, and the DOM
slots the handlers write (turn counter, agent badge, dashboard, start
button), plus the connection state of `ws`. -/
structure ClientState where
  chat : List ChatItem
  turnCount : Nat
  dashboard : Dashboard
  currentFraudRisk : Int
  currentAgentStyle : Option String
  agentIcon : String
  agentName : String
  agentStyleText : String
  connOpen : Bool
  startEnabled : Bool
deriving DecidableEq, Repr

/-- `addMessage` (script.js lines 155-207): a `system` speaker appends a
system bubble and, when the text mentions a fraud flag and the tracked
fraud risk is at least 5, a fraud-alert bubble; any other speaker appends
an ordinary message bubble. -/
def addMessage (chat : List ChatItem) (currentFraudRisk : Int)
    (speaker text : String) (isBounce : Bool) : List ChatItem :=
  if speaker = "system" then
    let withSystem := chat ++ [ChatItem.systemBubble text]
    if textIncludes text "flagged for fraud" = true ∧ currentFraudRisk ≥ 5 then
      withSystem ++ [ChatItem.fraudAlert currentFraudRisk]
    else withSystem
  else
    chat ++ [ChatItem.bubble speaker text isBounce]

/-- `showTypingIndicator` (script.js lines 209-244): remove any existing
indicator, then append a fresh one. -/
def showTypingIndicator (st : ClientState) (speaker : String) : ClientState :=
  { st with chat := hideTypingChat st.chat ++ [ChatItem.typingIndicator speaker] }

/-- `handleCallStart` (script.js lines 119-152): remove the welcome
message, zero the turn counter, set the agent badge and the tracked
style, reset the dashboard, append a call divider.  `currentFraudRisk`
is not touched by this handler. -/
def handleCallStart (st : ClientState) (callId : Nat)
    (agentStyle agentName displayName : String) (warmup : Bool) : ClientState :=
  { st with
    chat := removeWelcome st.chat
      ++ [ChatItem.divider callId agentStyle displayName warmup]
  , turnCount := 0
  , currentAgentStyle := some agentStyle
  , agentIcon := agentIconFor agentStyle
  , agentName := agentName
  , agentStyleText := displayName
  , dashboard := resetDashboard st.dashboard }

/-- Payload of a `call_end` event, restricted to the fields the handler
branches on; the remaining card content (customer profile, pitch, flag
reason, transcript) is rendered verbatim and carried by the card's
`outcome`/`points` identity here. -/
structure CallEndData where
  outcome : String
  points : Int
deriving DecidableEq, Repr

/-- `handleCallEnd` (script.js lines 383-463): append the outcome card
(with the marker from `outcomeEmoji` falling back to `?` and the points
class from the sign of `points`) and re-enable the start button. -/
def handleCallEnd (st : ClientState) (data : CallEndData) : ClientState :=
  { st with
    chat := st.chat ++ [ChatItem.outcomeCard data.outcome
      (outcomeMarker data.outcome)
      (if data.points ≥ 0 then "positive" else "negative") data.points]
  , startEnabled := true }

/-- `updateDashboard` as a state transition (script.js lines 255-310):
conditionally update the turn counter (`if (data.turn)` — zero is
falsy), store the displayed fraud risk in `currentFraudRisk`, and render
the dashboard. -/
def updateDashboardState (st : ClientState) (data : DashboardUpdate) : ClientState :=
  { st with
    turnCount :=
      match data.turn with
      | some n => if n = 0 then st.turnCount else n
      | none => st.turnCount
  , currentFraudRisk := jsOrInt data.confidence.fraud_likelihood 5
  , dashboard := updateDashboard data st.dashboard }

/-- A server→client event, tagged by its `type` field (script.js
lines 94-116). -/
inductive ServerEvent where
  | callStart (callId : Nat) (agentStyle agentName displayName : String)
      (warmup : Bool)
  | typing (speaker : String)
  | message (speaker text : String) (isBounce isEnd : Bool) (turn : Option Nat)
  | dashboardUpdate (data : DashboardUpdate)
  | callEnd (data : CallEndData)
deriving DecidableEq, Repr

/-- `handleMessage` (script.js lines 94-116).  The `message` case hides
the typing indicator, appends the message, then conditionally updates
the turn counter (`if (data.turn)` — zero is falsy). -/
def handleMessage (st : ClientState) (ev : ServerEvent) : ClientState :=
  match ev with
  | ServerEvent.callStart callId agentStyle agentName displayName warmup =>
      handleCallStart st callId agentStyle agentName displayName warmup
  | ServerEvent.typing speaker => showTypingIndicator st speaker
  | ServerEvent.message speaker text isBounce _isEnd turn =>
      { st with
        chat := addMessage (hideTypingChat st.chat) st.currentFraudRisk
          speaker text isBounce
      , turnCount :=
          match turn with
          | some n => if n = 0 then st.turnCount else n
          | none => st.turnCount }
  | ServerEvent.dashboardUpdate data => updateDashboardState st data
  | ServerEvent.callEnd data => handleCallEnd st data

/-- An external stimulus to the client: an incoming server event, a
click on the start button, or a connection-state callback. -/
inductive ClientEvent where
  | server (ev : ServerEvent)
  | click
  | wsOpen
  | wsClose
deriving DecidableEq, Repr

/-- `startNewCall` (script.js lines 547-552): only when the socket is
open does it disable the start button and send `new_call`; the returned
flag records whether `new_call` was sent. -/
def startNewCall (st : ClientState) : ClientState × Bool :=
  if st.connOpen then ({ st with startEnabled := false }, true)
  else (st, false)

/-- One step of the client.  A disabled button does not dispatch `click`
events, so the `startNewCall` listener (script.js line 612) runs only
while the button is enabled.  `ws.onopen` enables the button,
`ws.onclose` disables it (lines 70-81).  The Boolean records whether a
`new_call` command was sent during the step. -/
def applyEvent (st : ClientState) (ev : ClientEvent) : ClientState × Bool :=
  match ev with
  | ClientEvent.server se => (handleMessage st se, false)
  | ClientEvent.click =>
      if st.startEnabled then startNewCall st else (st, false)
  | ClientEvent.wsOpen => ({ st with connOpen := true, startEnabled := true }, false)
  | ClientEvent.wsClose => ({ st with connOpen := false, startEnabled := false }, false)

/-- Whether any step of the event sequence sends a `new_call` command. -/
def runSends (st : ClientState) : List ClientEvent → Bool
  | [] => false
  | ev :: rest =>
      let out := applyEvent st ev
      out.2 || runSends out.1 rest

/-- Does this stimulus carry a `call_end` event? -/
def isCallEndEvent : ClientEvent → Bool
  | ClientEvent.server (ServerEvent.callEnd _) => true
  | _ => false

/-- The pristine page: the HTML ships a welcome message, the button is
disabled until `ws.onopen`, and the module-level fraud tracker starts at
2 (script.js line 5). -/
def initialClient : ClientState :=
  { chat := [ChatItem.welcome]
  , turnCount := 0
  , dashboard :=
    { fraudRisk := 2, fraudLevel := "low"
    , head := 33, heart := 33, hand := 33
    , dominant := none
    , reasoning := "Waiting for conversation to begin..."
    , satisfaction := 5, satisfactionLevel := "medium"
    , trust := 5, trustLevel := "medium"
    , urgency := 5, urgencyLevel := "medium"
    , frustration := 2, frustrationLevel := "low"
    , likelihood := 5, likelihoodLevel := "medium"
    , tone := "neutral", toneClass := "neutral"
    , warningShown := false, warningLevel := "warning" }
  , currentFraudRisk := 2
  , currentAgentStyle := none
  , agentIcon := "?"
  , agentName := ""
  , agentStyleText := ""
  , connOpen := false
  , startEnabled := false }

/-! ### The two variant clients (`src/unnamed/part_000` and `part_001`)

Both files drive the streamed-session protocol (`session_start`,
`typing`, `message`, `session_end`); `part_001` additionally wires an
insights modal fed by a request/response query, which never touches the
streamed-event state.  Each variant's handlers are transcribed
separately so their equivalence is a theorem, not an assumption. -/

/-- Per-session stats object carried by `session_start` / `session_end`
(`updateStats`, part_000 lines 180-184). -/
structure VStats where
  converted : Int
  stayed : Int
  maybe : Int
deriving DecidableEq, Repr

/-- The `actual_profile` revealed at session end (part_000 lines
160-170). -/
structure VProfile where
  primary_loyalty : String
  openness_to_switch : String
  disclosure_style : String
deriving DecidableEq, Repr

/-- Payload of a `session_end` event (part_000 lines 140-177). -/
structure VEndData where
  outcome : String
  stats : Option VStats
  actual_profile : VProfile
  advocate_prediction : Option String
  prediction_correct : Bool
deriving DecidableEq, Repr

/-- One entry of the variant chat column, in document order. -/
inductive VChatItem where
  | welcome
  | divider (sessionId : Int)
  | bubble (speaker text : String)
  | typingIndicator (speaker : String)
  | outcomeCard (outcome heading loyalty openness disclosure
      predictionShown predictionBadge predictionText : String)
deriving DecidableEq, Repr

/-- The `outcomeText` lookup of `handleSessionEnd` (part_000 lines
150-154): a plain-object lookup, `undefined` off the three keys. -/
def outcomeText3 (o : String) : Option String :=
  if o = "converted" then some "✅ Converted to Android!"
  else if o = "stayed" then some "📱 Staying with iPhone"
  else if o = "maybe" then some "🤔 Maybe Later"
  else none

/-- The heading actually rendered in the card: the template literal
`${outcomeText[data.outcome]}` coerces a missing entry to the string
`undefined` (part_000 line 161). -/
def outcomeHeading (o : String) : String :=
  (outcomeText3 o).getD "undefined"

/-- Mutable state of a variant client: chat column, session counter
display, the three stat slots, and the start button / socket state. -/
structure VState where
  chat : List VChatItem
  sessionCount : Int
  shownConverted : Option Int
  shownStayed : Option Int
  shownMaybe : Option Int
  connOpen : Bool
  startEnabled : Bool
deriving DecidableEq, Repr

/-- An incoming streamed event for the variant clients (part_000 lines
41-57). -/
inductive VEvent where
  | sessionStart (sessionId : Int) (stats : Option VStats)
  | typing (speaker : String)
  | message (speaker text : String)
  | sessionEnd (d : VEndData)
deriving DecidableEq, Repr

/-- `hideTypingIndicator` of part_000 (lines 132-137): remove the first
element with id `typing-indicator`, if any. -/
def hideTypingV0 : List VChatItem → List VChatItem
  | [] => []
  | VChatItem.typingIndicator _ :: rest => rest
  | i :: rest => i :: hideTypingV0 rest

/-- Welcome-message removal of part_000 `handleSessionStart` (lines
70-73). -/
def removeWelcomeV0 : List VChatItem → List VChatItem
  | [] => []
  | VChatItem.welcome :: rest => rest
  | i :: rest => i :: removeWelcomeV0 rest

/-- `updateStats` of part_000 (lines 180-184). -/
def updateStatsV0 (st : VState) (stats : VStats) : VState :=
  { st with
    shownConverted := some stats.converted
  , shownStayed := some stats.stayed
  , shownMaybe := some stats.maybe }

/-- `handleSessionStart` of part_000 (lines 60-82). -/
def handleSessionStartV0 (st : VState) (sessionId : Int)
    (stats : Option VStats) : VState :=
  let st1 := { st with sessionCount := sessionId }
  let st2 :=
    match stats with
    | some s => updateStatsV0 st1 s
    | none => st1
  { st2 with chat := removeWelcomeV0 st2.chat ++ [VChatItem.divider sessionId] }

/-- `addMessage` of part_000 (lines 85-102). -/
def addMessageV0 (st : VState) (speaker text : String) : VState :=
  { st with chat := st.chat ++ [VChatItem.bubble speaker text] }

/-- `showTypingIndicator` of part_000 (lines 105-129). -/
def showTypingV0 (st : VState) (speaker : String) : VState :=
  { st with chat := hideTypingV0 st.chat ++ [VChatItem.typingIndicator speaker] }

/-- `handleSessionEnd` of part_000 (lines 140-177): update stats when
provided, append the outcome card, re-enable the start button.
`data.advocate_prediction || 'N/A'` falls back on absent or empty
predictions. -/
def handleSessionEndV0 (st : VState) (d : VEndData) : VState :=
  let st1 :=
    match d.stats with
    | some s => updateStatsV0 st s
    | none => st
  { st1 with
    chat := st1.chat ++ [VChatItem.outcomeCard d.outcome
      (outcomeHeading d.outcome)
      d.actual_profile.primary_loyalty
      d.actual_profile.openness_to_switch
      d.actual_profile.disclosure_style
      (jsOrStr d.advocate_prediction "N/A")
      (if d.prediction_correct then "correct" else "incorrect")
      (if d.prediction_correct then "Correct!" else "Wrong")]
  , startEnabled := true }

/-- `handleMessage` of part_000 (lines 41-57). -/
def handleMessageV0 (st : VState) (ev : VEvent) : VState :=
  match ev with
  | VEvent.sessionStart sessionId stats => handleSessionStartV0 st sessionId stats
  | VEvent.typing speaker => showTypingV0 st speaker
  | VEvent.message speaker text =>
      addMessageV0 { st with chat := hideTypingV0 st.chat } speaker text
  | VEvent.sessionEnd d => handleSessionEndV0 st d

/-- `hideTypingIndicator` of part_001 (lines 132-137). -/
def hideTypingV1 : List VChatItem → List VChatItem
  | [] => []
  | VChatItem.typingIndicator _ :: rest => rest
  | i :: rest => i :: hideTypingV1 rest

/-- Welcome-message removal of part_001 `handleSessionStart` (lines
70-73). -/
def removeWelcomeV1 : List VChatItem → List VChatItem
  | [] => []
  | VChatItem.welcome :: rest => rest
  | i :: rest => i :: removeWelcomeV1 rest

/-- `updateStats` of part_001 (lines 180-184). -/
def updateStatsV1 (st : VState) (stats : VStats) : VState :=
  { st with
    shownConverted := some stats.converted
  , shownStayed := some stats.stayed
  , shownMaybe := some stats.maybe }

/-- `handleSessionStart` of part_001 (lines 60-82). -/
def handleSessionStartV1 (st : VState) (sessionId : Int)
    (stats : Option VStats) : VState :=
  let st1 := { st with sessionCount := sessionId }
  let st2 :=
    match stats with
    | some s => updateStatsV1 st1 s
    | none => st1
  { st2 with chat := removeWelcomeV1 st2.chat ++ [VChatItem.divider sessionId] }

/-- `addMessage` of part_001 (lines 85-102). -/
def addMessageV1 (st : VState) (speaker text : String) : VState :=
  { st with chat := st.chat ++ [VChatItem.bubble speaker text] }

/-- `showTypingIndicator` of part_001 (lines 105-129). -/
def showTypingV1 (st : VState) (speaker : String) : VState :=
  { st with chat := hideTypingV1 st.chat ++ [VChatItem.typingIndicator speaker] }

/-- `handleSessionEnd` of part_001 (lines 140-177). -/
def handleSessionEndV1 (st : VState) (d : VEndData) : VState :=
  let st1 :=
    match d.stats with
    | some s => updateStatsV1 st s
    | none => st
  { st1 with
    chat := st1.chat ++ [VChatItem.outcomeCard d.outcome
      (outcomeHeading d.outcome)
      d.actual_profile.primary_loyalty
      d.actual_profile.openness_to_switch
      d.actual_profile.disclosure_style
      (jsOrStr d.advocate_prediction "N/A")
      (if d.prediction_correct then "correct" else "incorrect")
      (if d.prediction_correct then "Correct!" else "Wrong")]
  , startEnabled := true }

/-- `handleMessage` of part_001 (lines 41-57). -/
def handleMessageV1 (st : VState) (ev : VEvent) : VState :=
  match ev with
  | VEvent.sessionStart sessionId stats => handleSessionStartV1 st sessionId stats
  | VEvent.typing speaker => showTypingV1 st speaker
  | VEvent.message speaker text =>
      addMessageV1 { st with chat := hideTypingV1 st.chat } speaker text
  | VEvent.sessionEnd d => handleSessionEndV1 st d

/-! ### Concrete inputs used by counterexamples and witnesses -/

/-- A `dashboard_update` whose confidence carries no `fraud_likelihood`
and no motivation distribution. -/
def noFraudUpdate : DashboardUpdate :=
  { confidence := { fraud_likelihood := none, motivation_guess := none, reasoning := none }
  , sentiment :=
    { satisfaction := 5, trust := 5, urgency := 5, frustration := 2
    , likelihood_to_convert := 5, emotional_tone := none }
  , turn := none }

/-- A `dashboard_update` whose satisfaction scalar lies outside the
documented [0,10] range. -/
def outOfRangeUpdate : DashboardUpdate :=
  { confidence := { fraud_likelihood := some 3, motivation_guess := none, reasoning := none }
  , sentiment :=
    { satisfaction := 15, trust := 5, urgency := 5, frustration := 2
    , likelihood_to_convert := 5, emotional_tone := none }
  , turn := none }

/-! ### Claims -/

/-- Claim C1, counterexample: a `dashboard_update` whose confidence
carries no `fraud_likelihood` renders fraud risk 5, not the display
layer's reset default of 2/10 — the fallback differs from the documented
neutral default used at reset. -/
theorem c1_counterexample :
    (updateDashboard noFraudUpdate initialClient.dashboard).fraudRisk = 5 ∧
    (resetDashboard initialClient.dashboard).fraudRisk = 2 ∧
    (updateDashboard noFraudUpdate initialClient.dashboard).fraudRisk ≠
      (resetDashboard initialClient.dashboard).fraudRisk := by
  refine ⟨rfl, rfl, ?_⟩
  decide

/-- Claim C1 (amended): when the analytics estimator supplies no
fraud-likelihood value, the rendered fraud risk falls back to the
mid-point 5, while the display layer's own reset default is 2/10 — the
client uses two different neutral defaults rather than one. -/
theorem c1_fraud_fallback (data : DashboardUpdate) (prev : Dashboard)
    (h : data.confidence.fraud_likelihood = none) :
    (updateDashboard data prev).fraudRisk = 5 ∧
    ∀ d : Dashboard, (resetDashboard d).fraudRisk = 2 := by
  refine ⟨?_, fun _ => rfl⟩
  simp [updateDashboard, jsOrInt, h]

/-- Witness for `c1_fraud_fallback` at the concrete input
`noFraudUpdate`. -/
theorem c1_fraud_fallback_witness :
    (updateDashboard noFraudUpdate initialClient.dashboard).fraudRisk = 5 :=
  (c1_fraud_fallback noFraudUpdate initialClient.dashboard rfl).1

/-- Claim C2, counterexample: the dashboard produced by a reset shows
motivations 33/33/33, whose sum is 99, not 100. -/
theorem c2_counterexample :
    (resetDashboard initialClient.dashboard).head +
      (resetDashboard initialClient.dashboard).heart +
      (resetDashboard initialClient.dashboard).hand = 99 ∧
    (99 : Int) ≠ 100 := by
  refine ⟨rfl, ?_⟩
  decide

/-- Claim C2 (amended): when a `dashboard_update` carries no motivation
distribution the client renders the default head 33 / heart 34 / hand 33,
which sums to exactly 100; the reset state instead renders 33/33/33,
which sums to 99; and a supplied distribution is rendered exactly as
given, so its sum is whatever the input sums to. -/
theorem c2_motivation_sum (data : DashboardUpdate) (prev : Dashboard)
    (h : data.confidence.motivation_guess = none) :
    (updateDashboard data prev).head = 33 ∧
    (updateDashboard data prev).heart = 34 ∧
    (updateDashboard data prev).hand = 33 ∧
    (updateDashboard data prev).head + (updateDashboard data prev).heart +
      (updateDashboard data prev).hand = 100 ∧
    (∀ d : Dashboard,
      (resetDashboard d).head + (resetDashboard d).heart + (resetDashboard d).hand = 99) ∧
    (∀ (data2 : DashboardUpdate) (prev2 : Dashboard) (m : Motivation),
      data2.confidence.motivation_guess = some m →
      (updateDashboard data2 prev2).head = m.head ∧
      (updateDashboard data2 prev2).heart = m.heart ∧
      (updateDashboard data2 prev2).hand = m.hand) := by
  refine ⟨?_, ?_, ?_, ?_, fun _ => rfl, ?_⟩
  · simp [updateDashboard, h]
  · simp [updateDashboard, h]
  · simp [updateDashboard, h]
  · simp [updateDashboard, h]
  · intro data2 prev2 m hm
    refine ⟨?_, ?_, ?_⟩ <;> simp [updateDashboard, hm]

/-- Witness for `c2_motivation_sum` at the concrete input
`noFraudUpdate`. -/
theorem c2_motivation_sum_witness :
    (updateDashboard noFraudUpdate initialClient.dashboard).head = 33 :=
  (c2_motivation_sum noFraudUpdate initialClient.dashboard rfl).1

/-- Claim C3, counterexample: a `dashboard_update` carrying satisfaction
15 renders the value 15, outside [0,10] — the client does not clamp. -/
theorem c3_counterexample :
    (updateDashboard outOfRangeUpdate initialClient.dashboard).satisfaction = 15 ∧
    ¬ ((updateDashboard outOfRangeUpdate initialClient.dashboard).satisfaction ≤ 10) := by
  refine ⟨rfl, ?_⟩
  decide

/-- Claim C3 (amended): the client performs no clamping at all — each
rendered sentiment scalar equals the value the analytics input carries,
and the rendered fraud risk equals the carried fraud likelihood except
that an absent or zero value falls back to 5; the rendered values lie in
[0,10] exactly when the inputs do. -/
theorem c3_no_clamping (data : DashboardUpdate) (prev : Dashboard) :
    (updateDashboard data prev).satisfaction = data.sentiment.satisfaction ∧
    (updateDashboard data prev).trust = data.sentiment.trust ∧
    (updateDashboard data prev).urgency = data.sentiment.urgency ∧
    (updateDashboard data prev).frustration = data.sentiment.frustration ∧
    (updateDashboard data prev).likelihood = data.sentiment.likelihood_to_convert ∧
    (updateDashboard data prev).fraudRisk = jsOrInt data.confidence.fraud_likelihood 5 :=
  ⟨rfl, rfl, rfl, rfl, rfl, rfl⟩

/-- Claim C4: every `call_start` event zeroes the turn counter and
resets the dashboard to the documented neutral priors (fraud 2/10,
motivations 33/33/33, satisfaction/trust/urgency/likelihood 5,
frustration 2, tone neutral), whatever the prior client state was, and
`resetDashboard` is idempotent. -/
theorem c4_call_start_reset (st : ClientState) (callId : Nat)
    (agentStyle agentName displayName : String) (warmup : Bool) :
    let st2 := handleMessage st
      (ServerEvent.callStart callId agentStyle agentName displayName warmup)
    st2.turnCount = 0 ∧
    st2.dashboard.fraudRisk = 2 ∧
    st2.dashboard.head = 33 ∧ st2.dashboard.heart = 33 ∧ st2.dashboard.hand = 33 ∧
    st2.dashboard.satisfaction = 5 ∧ st2.dashboard.trust = 5 ∧
    st2.dashboard.urgency = 5 ∧ st2.dashboard.likelihood = 5 ∧
    st2.dashboard.frustration = 2 ∧ st2.dashboard.tone = "neutral" ∧
    (∀ d : Dashboard, resetDashboard (resetDashboard d) = resetDashboard d) :=
  ⟨rfl, rfl, rfl, rfl, rfl, rfl, rfl, rfl, rfl, rfl, rfl, fun _ => rfl⟩

/-- Claim C5: tone classification is a fixed keyword lookup — a tone
whose lower-casing is in the positive keyword list is classified
positive, one in the negative list negative, every other string and an
absent tone neutral. -/
theorem c5_tone_classification (s : String) :
    (jsToLower s ∈ positiveTones → getToneClass (some s) = "positive") ∧
    (jsToLower s ∈ negativeTones → getToneClass (some s) = "negative") ∧
    (jsToLower s ∉ positiveTones → jsToLower s ∉ negativeTones →
      getToneClass (some s) = "neutral") ∧
    getToneClass none = "neutral" := by
  refine ⟨?_, ?_, ?_, rfl⟩
  · intro h
    simp [getToneClass, h]
  · intro h
    have hp : jsToLower s ∉ positiveTones := by
      have h2 := h
      simp only [negativeTones, List.mem_cons, List.not_mem_nil, or_false] at h2
      rcases h2 with h1 | h1 | h1 | h1 | h1 | h1 <;> rw [h1] <;> decide
    simp [getToneClass, h, hp]
  · intro hp hn
    simp [getToneClass, hp, hn]

/-- Witness for `c5_tone_classification` at the concrete tones `Happy`,
`ANGRY` and `melancholy`. -/
theorem c5_tone_classification_witness :
    getToneClass (some "Happy") = "positive" ∧
    getToneClass (some "ANGRY") = "negative" ∧
    getToneClass (some "melancholy") = "neutral" :=
  ⟨(c5_tone_classification "Happy").1 (by decide),
   (c5_tone_classification "ANGRY").2.1 (by decide),
   (c5_tone_classification "melancholy").2.2.1 (by decide) (by decide)⟩

/-- Claim C9: dominant-motivation selection is total and deterministic
with the tie-break order head, heart, hand — head whenever it is maximal,
otherwise heart whenever heart is at least hand, otherwise hand. -/
theorem c9_dominant_motivation (m : Motivation) :
    getDominantMotivation m =
      (if m.head ≥ m.heart ∧ m.head ≥ m.hand then "head"
       else if m.heart ≥ m.hand then "heart"
       else "hand") := by
  rcases m with ⟨h, he, ha⟩
  simp only [getDominantMotivation]
  split_ifs <;> first | rfl | (exfalso; omega)

/-! ### Helper lemmas for the start-button protocol (C6) -/

/-- A step that is neither a `call_end` event nor the socket's `onopen`
callback keeps a disabled start button disabled and sends nothing. -/
theorem applyEvent_preserves_disabled (st : ClientState) (ev : ClientEvent)
    (hdis : st.startEnabled = false) (hce : isCallEndEvent ev = false)
    (hopen : ev ≠ ClientEvent.wsOpen) :
    (applyEvent st ev).1.startEnabled = false ∧ (applyEvent st ev).2 = false := by
  cases ev with
  | server se =>
    cases se with
    | callStart callId agentStyle agentName displayName warmup =>
      exact ⟨hdis, rfl⟩
    | typing speaker => exact ⟨hdis, rfl⟩
    | message speaker text isBounce isEnd turn => exact ⟨hdis, rfl⟩
    | dashboardUpdate data => exact ⟨hdis, rfl⟩
    | callEnd data => simp [isCallEndEvent] at hce
  | click => simp [applyEvent, hdis]
  | wsOpen => exact absurd rfl hopen
  | wsClose => simp [applyEvent]

/-- While the start button is disabled, no `new_call` is sent across any
sequence of events that contains neither a `call_end` nor an `onopen`. -/
theorem disabled_no_send (st : ClientState) (evs : List ClientEvent)
    (hdis : st.startEnabled = false)
    (hevs : ∀ e ∈ evs, isCallEndEvent e = false ∧ e ≠ ClientEvent.wsOpen) :
    runSends st evs = false := by
  induction evs generalizing st with
  | nil => rfl
  | cons e rest ih =>
    have he := hevs e (List.mem_cons_self e rest)
    have hp := applyEvent_preserves_disabled st e hdis he.1 he.2
    simp only [runSends, hp.2, Bool.false_or]
    exact ih (applyEvent st e).1 hp.1 (fun e' he' => hevs e' (List.mem_cons_of_mem e he'))

/-- The client state right after `ws.onopen` fires on the pristine page. -/
def readyClient : ClientState :=
  { initialClient with connOpen := true, startEnabled := true }

/-- Claim C6: `new_call` is sent only when the socket is open and the
start control is enabled; sending disables the control; and from the
moment of sending, as long as neither a `call_end` event nor a fresh
connection (`onopen`) arrives, no second `new_call` can be sent. -/
theorem c6_no_double_new_call :
    (∀ st : ClientState, (applyEvent st ClientEvent.click).2 = true →
      st.connOpen = true ∧ st.startEnabled = true) ∧
    (∀ st : ClientState, (applyEvent st ClientEvent.click).2 = true →
      (applyEvent st ClientEvent.click).1.startEnabled = false) ∧
    (∀ (st : ClientState) (evs : List ClientEvent),
      (applyEvent st ClientEvent.click).2 = true →
      (∀ e ∈ evs, isCallEndEvent e = false ∧ e ≠ ClientEvent.wsOpen) →
      runSends (applyEvent st ClientEvent.click).1 evs = false) := by
  have hsent : ∀ st : ClientState, (applyEvent st ClientEvent.click).2 = true →
      st.connOpen = true ∧ st.startEnabled = true := by
    intro st h
    by_cases h1 : st.startEnabled = true
    · by_cases h2 : st.connOpen = true
      · exact ⟨h2, h1⟩
      · simp [applyEvent, startNewCall, h1, h2] at h
    · simp [applyEvent, h1] at h
  have hdisables : ∀ st : ClientState, (applyEvent st ClientEvent.click).2 = true →
      (applyEvent st ClientEvent.click).1.startEnabled = false := by
    intro st h
    obtain ⟨h2, h1⟩ := hsent st h
    simp [applyEvent, startNewCall, h1, h2]
  refine ⟨hsent, hdisables, ?_⟩
  intro st evs h hevs
  exact disabled_no_send (applyEvent st ClientEvent.click).1 evs (hdisables st h) hevs

/-- Witness for `c6_no_double_new_call`: on the freshly connected page a
click sends `new_call`, and a further click followed by a typing event
sends nothing until a `call_end` arrives. -/
theorem c6_no_double_new_call_witness :
    runSends (applyEvent readyClient ClientEvent.click).1
      [ClientEvent.click, ClientEvent.server (ServerEvent.typing "agent")] = false :=
  c6_no_double_new_call.2.2 readyClient
    [ClientEvent.click, ClientEvent.server (ServerEvent.typing "agent")]
    rfl (by decide)

/-- Claim C7: outcome is a closed enumeration at the call-end interface —
the four-outcome variant maps conversion / missed_opp / fraud_caught /
fraud_missed to four distinct markers and everything else to the fallback
marker, and the alternate variant maps converted / stayed / maybe to
three distinct headings and everything else to the coerced fallback
heading `undefined`; neither fallback collides with a real category. -/
theorem c7_outcome_enumeration :
    (outcomeMarker "conversion" = "+" ∧ outcomeMarker "missed_opp" = "-" ∧
     outcomeMarker "fraud_caught" = "!" ∧ outcomeMarker "fraud_missed" = "X") ∧
    (["+", "-", "!", "X"] : List String).Nodup ∧
    (∀ o : String,
      o ∉ (["conversion", "missed_opp", "fraud_caught", "fraud_missed"] : List String) →
      outcomeMarker o = "?" ∧ "?" ∉ (["+", "-", "!", "X"] : List String)) ∧
    (outcomeHeading "converted" = "✅ Converted to Android!" ∧
     outcomeHeading "stayed" = "📱 Staying with iPhone" ∧
     outcomeHeading "maybe" = "🤔 Maybe Later") ∧
    (["✅ Converted to Android!", "📱 Staying with iPhone", "🤔 Maybe Later"] : List String).Nodup ∧
    (∀ o : String, o ∉ (["converted", "stayed", "maybe"] : List String) →
      outcomeHeading o = "undefined" ∧
      "undefined" ∉
        (["✅ Converted to Android!", "📱 Staying with iPhone", "🤔 Maybe Later"] : List String)) := by
  refine ⟨⟨rfl, rfl, rfl, rfl⟩, by decide, ?_, ⟨rfl, rfl, rfl⟩, by decide, ?_⟩
  · intro o ho
    simp only [List.mem_cons, List.not_mem_nil, or_false, not_or] at ho
    obtain ⟨h1, h2, h3, h4⟩ := ho
    refine ⟨?_, by decide⟩
    simp [outcomeMarker, outcomeEmoji, h1, h2, h3, h4]
  · intro o ho
    simp only [List.mem_cons, List.not_mem_nil, or_false, not_or] at ho
    obtain ⟨h1, h2, h3⟩ := ho
    refine ⟨?_, by decide⟩
    simp [outcomeHeading, outcomeText3, h1, h2, h3]

/-- Witness for `c7_outcome_enumeration` at the out-of-enumeration
outcome `timeout`. -/
theorem c7_outcome_enumeration_witness :
    outcomeMarker "timeout" = "?" ∧ outcomeHeading "timeout" = "undefined" :=
  ⟨(c7_outcome_enumeration.2.2.1 "timeout" (by decide)).1,
   (c7_outcome_enumeration.2.2.2.2.2 "timeout" (by decide)).1⟩

/-! ### Helper lemmas for the typing-indicator invariant (C8) -/

/-- Counting typing indicators distributes over append. -/
theorem countTyping_append (a b : List ChatItem) :
    countTyping (a ++ b) = countTyping a + countTyping b :=
  List.countP_append isTypingItem a b

/-- Hiding the typing indicator removes exactly one occurrence when one
exists. -/
theorem countTyping_hide (c : List ChatItem) :
    countTyping (hideTypingChat c) = countTyping c - 1 := by
  induction c with
  | nil => rfl
  | cons i rest ih =>
    by_cases h : isTypingItem i = true
    · simp [hideTypingChat, countTyping, h, List.countP_cons]
    · simp only [hideTypingChat, h, if_false, Bool.false_eq_true]
      simp only [countTyping, List.countP_cons, h, if_false, Bool.false_eq_true] at ih ⊢
      omega

/-- Removing the welcome message never touches a typing indicator. -/
theorem countTyping_removeWelcome (c : List ChatItem) :
    countTyping (removeWelcome c) = countTyping c := by
  induction c with
  | nil => rfl
  | cons i rest ih =>
    by_cases h : isWelcomeItem i = true
    · have ht : isTypingItem i = false := by
        cases i <;> simp_all [isWelcomeItem, isTypingItem]
      simp [removeWelcome, countTyping, h, List.countP_cons, ht]
    · simp only [removeWelcome, h, if_false, Bool.false_eq_true]
      simp only [countTyping, List.countP_cons] at ih ⊢
      omega

/-- `addMessage` appends only non-indicator bubbles. -/
theorem countTyping_addMessage (c : List ChatItem) (r : Int)
    (sp t : String) (b : Bool) :
    countTyping (addMessage c r sp t b) = countTyping c := by
  unfold addMessage
  split_ifs <;> simp [countTyping, List.countP_append, isTypingItem]

/-- Claim C8: at most one typing indicator ever exists — every step of
the client preserves the at-most-one invariant, `showTypingIndicator`
removes any existing indicator before appending the fresh one, and a
`message` event leaves no indicator at all (it is removed before the
message bubble is appended). -/
theorem c8_typing_indicator_invariant :
    (∀ (st : ClientState) (ev : ClientEvent), countTyping st.chat ≤ 1 →
      countTyping ((applyEvent st ev).1).chat ≤ 1) ∧
    (∀ (st : ClientState) (speaker : String),
      (showTypingIndicator st speaker).chat =
        hideTypingChat st.chat ++ [ChatItem.typingIndicator speaker]) ∧
    (∀ (st : ClientState) (speaker text : String) (isBounce isEnd : Bool)
        (turn : Option Nat), countTyping st.chat ≤ 1 →
      countTyping (handleMessage st
        (ServerEvent.message speaker text isBounce isEnd turn)).chat = 0) := by
  have hmsg : ∀ (st : ClientState) (speaker text : String) (isBounce isEnd : Bool)
      (turn : Option Nat), countTyping st.chat ≤ 1 →
      countTyping (handleMessage st
        (ServerEvent.message speaker text isBounce isEnd turn)).chat = 0 := by
    intro st speaker text isBounce isEnd turn h
    have h1 := countTyping_hide st.chat
    simp only [handleMessage, countTyping_addMessage]
    omega
  refine ⟨?_, fun _ _ => rfl, hmsg⟩
  intro st ev h
  cases ev with
  | server se =>
    cases se with
    | callStart callId agentStyle agentName displayName warmup =>
      have h1 := countTyping_removeWelcome st.chat
      simp only [applyEvent, handleMessage, handleCallStart]
      rw [countTyping_append]
      have h2 : countTyping
        [ChatItem.divider callId agentStyle displayName warmup] = 0 := rfl
      omega
    | typing speaker =>
      have h1 := countTyping_hide st.chat
      simp only [applyEvent, handleMessage, showTypingIndicator]
      rw [countTyping_append]
      have h2 : countTyping [ChatItem.typingIndicator speaker] = 1 := rfl
      omega
    | message speaker text isBounce isEnd turn =>
      have h1 := hmsg st speaker text isBounce isEnd turn h
      simp only [applyEvent]
      omega
    | dashboardUpdate data => exact h
    | callEnd data =>
      simp only [applyEvent, handleMessage, handleCallEnd]
      rw [countTyping_append]
      have h2 : countTyping [ChatItem.outcomeCard data.outcome
        (outcomeMarker data.outcome)
        (if data.points ≥ 0 then "positive" else "negative") data.points] = 0 := by
        simp [countTyping, isTypingItem]
      omega
  | click =>
    by_cases h1 : st.startEnabled = true
    · by_cases h2 : st.connOpen = true
      · simpa [applyEvent, startNewCall, h1, h2] using h
      · simpa [applyEvent, startNewCall, h1, h2] using h
    · simpa [applyEvent, h1] using h
  | wsOpen => exact h
  | wsClose => exact h

/-- Witness for `c8_typing_indicator_invariant`: a typing event on a chat
already holding one indicator still leaves at most one. -/
theorem c8_typing_indicator_witness :
    countTyping ((applyEvent
      { initialClient with chat := [ChatItem.typingIndicator "agent"] }
      (ClientEvent.server (ServerEvent.typing "customer"))).1).chat ≤ 1 :=
  c8_typing_indicator_invariant.1
    { initialClient with chat := [ChatItem.typingIndicator "agent"] }
    (ClientEvent.server (ServerEvent.typing "customer")) (by decide)

/-! ### Helper lemmas for the variant equivalence (C10) -/

/-- The two variants remove the typing indicator identically. -/
theorem hideTypingV0_eq (c : List VChatItem) : hideTypingV0 c = hideTypingV1 c := by
  induction c with
  | nil => rfl
  | cons i rest ih => cases i <;> simp [hideTypingV0, hideTypingV1, ih]

/-- The two variants remove the welcome message identically. -/
theorem removeWelcomeV0_eq (c : List VChatItem) : removeWelcomeV0 c = removeWelcomeV1 c := by
  induction c with
  | nil => rfl
  | cons i rest ih => cases i <;> simp [removeWelcomeV0, removeWelcomeV1, ih]

/-- Claim C10: the two variant clients are behaviourally equivalent on
the streamed-session protocol — for every `session_start`, `typing`,
`message` or `session_end` event and every client state, the first
variant's handler and the second variant's handler produce the same
state; the second variant differs only by the insights query surface,
which is outside the streamed-event handlers. -/
theorem c10_variant_equivalence (st : VState) (ev : VEvent) :
    handleMessageV0 st ev = handleMessageV1 st ev := by
  cases ev with
  | sessionStart sessionId stats =>
    cases stats <;>
      simp [handleMessageV0, handleMessageV1, handleSessionStartV0,
        handleSessionStartV1, updateStatsV0, updateStatsV1, removeWelcomeV0_eq]
  | typing speaker =>
    simp [handleMessageV0, handleMessageV1, showTypingV0, showTypingV1,
      hideTypingV0_eq]
  | message speaker text =>
    simp [handleMessageV0, handleMessageV1, addMessageV0, addMessageV1,
      hideTypingV0_eq]
  | sessionEnd d =>
    cases hd : d.stats <;>
      simp [handleMessageV0, handleMessageV1, handleSessionEndV0,
        handleSessionEndV1, updateStatsV0, updateStatsV1, hd]

end AndroidConverter
